import Mathlib

/-!
# go-workflow-example: HTTP job lifecycle over a durable execution engine

A shallow embedding of `service.go` (the HTTP handlers and the two gateway
operations) and of `workflow/workflow.go` (the state constants, the name table
and `StartWorkflow`).

Modelling conventions

* `time.Duration` is a signed 64-bit count of nanoseconds: an `Int` on which every
  arithmetic operation of the source is followed by `wrap64`.
* The Cadence client is not part of the repository.  It is a pair of total
  functions (`Client`) that answer the two remote calls; every call a handler makes
  is also recorded in a log (`List EngineCall`), so that "the engine is not called"
  is a statement about that log.
* An `http.ResponseWriter` is the header map, the status code once written, and the
  list of body writes.
* A request carries its method, `URL.Path`, the parsed query pairs and the outcome of
  decoding its body into the handler's `Request` struct.
* Calls to the loggers write nothing a client or the engine can observe and are left
  out.
-/

namespace GoWorkflow

/-! ## package time -/

/-- Signed 64-bit nanosecond count, as Go's `time.Duration`. -/
abbrev Duration := Int

/-- Two's complement wrap-around of an integer to the int64 range. -/
def wrap64 (x : Int) : Int := (x + 9223372036854775808) % 18446744073709551616 - 9223372036854775808

/-- Membership in the int64 range. -/
def isInt64 (x : Int) : Prop := -9223372036854775808 ≤ x ∧ x ≤ 9223372036854775807

instance (x : Int) : Decidable (isInt64 x) := by unfold isInt64; infer_instance

/-- Constant `time.Second`. -/
def Second : Duration := 1000000000

/-- Constant `time.Minute`. -/
def Minute : Duration := wrap64 (60 * Second)

/-! ## package workflow: states -/

/-- Go's `type State int32`. -/
abbrev State := Int

def State_STARTED : State := 0
def State_COMPLETED : State := 1
def State_FAILED : State := 2

/-- The map literal `State_name`. -/
def State_name : List (State × String) :=
  [(0, "started"), (1, "completed"), (2, "failed")]

/-- Indexing `State_name[s]`: a missing key yields the zero value of `string`. -/
def State_name_at (s : State) : String := (State_name.lookup s).getD ""

/-! ## package workflow: StartWorkflow -/

/-- The fields of `workflow.ActivityOptions` that the source sets. -/
structure ActivityOptions where
  ScheduleToStartTimeout : Duration
  StartToCloseTimeout : Duration
  HeartbeatTimeout : Duration
deriving DecidableEq, Repr

/-- What the engine answers to the two calls `StartWorkflow` makes:
`SetQueryHandler` (an error, if any, for the query type) and
`ExecuteActivity(ctx, sleep, waitingTime).Get(ctx, &result)`. -/
structure WorkflowEnv where
  SetQueryHandler : String → Option String
  ExecuteActivity : ActivityOptions → Duration → Except String Bool

/-- The options built by `workflow.WithActivityOptions` in `StartWorkflow`. -/
def activityOptions (waitingTime : Duration) : ActivityOptions :=
  { ScheduleToStartTimeout := Minute
    StartToCloseTimeout := wrap64 (waitingTime + Second)
    HeartbeatTimeout := 0 }

/-- Function `StartWorkflow`, run to its return: the final value of the local
`currentState` and the returned error (`none` for `nil`). -/
def StartWorkflow (env : WorkflowEnv) (waitingTime : Duration) : State × Option String := Id.run do
  let mut currentState := State_STARTED
  match env.SetQueryHandler "state" with
  | some err =>
    currentState := State_FAILED
    return (currentState, some err)
  | none => pure ()
  match env.ExecuteActivity (activityOptions waitingTime) waitingTime with
  | Except.error err =>
    currentState := State_FAILED
    return (currentState, some err)
  | Except.ok _ => pure ()
  currentState := State_COMPLETED
  return (currentState, none)

/-- Program points of `StartWorkflow` between which the engine may evaluate a query. -/
inductive PC where
  | registering
  | executing
  | returned (err : Option String)
deriving DecidableEq, Repr

/-- The activation record of one run of `StartWorkflow`: where it stands, the local
`currentState`, and whether the closure is registered as the "state" query handler. -/
structure Config where
  pc : PC
  currentState : State
  handler : Bool
deriving DecidableEq, Repr

/-- The record right after `currentState := State_STARTED`. -/
def Config.init : Config :=
  { pc := PC.registering, currentState := State_STARTED, handler := false }

/-- One step of `StartWorkflow`: the call to `SetQueryHandler`, then the wait for the
activity's result; a returned run stays as it is. -/
def Config.step (env : WorkflowEnv) (waitingTime : Duration) (c : Config) : Config :=
  match c.pc with
  | PC.registering =>
    match env.SetQueryHandler "state" with
    | some err => { pc := PC.returned (some err), currentState := State_FAILED, handler := false }
    | none => { c with pc := PC.executing, handler := true }
  | PC.executing =>
    match env.ExecuteActivity (activityOptions waitingTime) waitingTime with
    | Except.error err => { c with pc := PC.returned (some err), currentState := State_FAILED }
    | Except.ok _ => { c with pc := PC.returned none, currentState := State_COMPLETED }
  | PC.returned _ => c

/-- The record after `n` steps of the run. -/
def configAt (env : WorkflowEnv) (waitingTime : Duration) : Nat → Config
  | 0 => Config.init
  | n + 1 => Config.step env waitingTime (configAt env waitingTime n)

/-- The registered closure `func() (State, error) { return currentState, nil }`,
evaluated on a record; a query type without a handler is an error. -/
def queryState (c : Config) : Except String State :=
  if c.handler then Except.ok c.currentState else Except.error "unknown queryType state"

/-! ## package net/http -/

/-- Go's `http.Header`: keys with their lists of values. -/
structure Header where
  entries : List (String × List String)
deriving DecidableEq, Repr

/-- All values stored under a key. -/
def Header.Values (h : Header) (key : String) : List String :=
  (h.entries.lookup key).getD []

/-- Method `Header.Get`: the first value under the key, or the empty string. -/
def Header.Get (h : Header) (key : String) : String :=
  (h.Values key).headD ""

/-- Whether the key is present at all. -/
def Header.Has (h : Header) (key : String) : Bool :=
  (h.entries.lookup key).isSome

/-- Method `Header.Set`: the key now holds exactly this value. -/
def Header.Set (h : Header) (key value : String) : Header :=
  { entries := (key, [value]) :: h.entries.filter (fun e => e.1 != key) }

/-- Method `Header.Add`: the value is appended to those under the key. -/
def Header.Add (h : Header) (key value : String) : Header :=
  { entries := (key, h.Values key ++ [value]) :: h.entries.filter (fun e => e.1 != key) }

/-- One write to the response body: a line of text, or a struct handed to
`json.NewEncoder(w).Encode`, kept as its field names and string values. -/
inductive BodyPart where
  | text (line : String)
  | json (fields : List (String × String))
deriving DecidableEq, Repr

/-- The response under construction. -/
structure ResponseWriter where
  header : Header
  status : Option Nat
  body : List BodyPart
deriving DecidableEq, Repr

/-- A fresh writer. -/
def ResponseWriter.new : ResponseWriter :=
  { header := { entries := [] }, status := none, body := [] }

/-- Method `WriteHeader`: only the first call fixes the status code. -/
def ResponseWriter.WriteHeader (w : ResponseWriter) (code : Nat) : ResponseWriter :=
  match w.status with
  | some _ => w
  | none => { w with status := some code }

/-- Method `Write`: a write before `WriteHeader` implies status 200. -/
def ResponseWriter.Write (w : ResponseWriter) (p : BodyPart) : ResponseWriter :=
  let w1 := w.WriteHeader 200
  { w1 with body := w1.body ++ [p] }

/-- The status code the client sees. -/
def ResponseWriter.StatusCode (w : ResponseWriter) : Nat := w.status.getD 200

def StatusOK : Nat := 200
def StatusAccepted : Nat := 202
def StatusFound : Nat := 302
def StatusBadRequest : Nat := 400
def StatusNotFound : Nat := 404
def StatusMethodNotAllowed : Nat := 405
def StatusInternalServerError : Nat := 500

/-- Function `http.Error`: the two headers it sets, the status code and the message
line.  The entity headers it may drop are never set by this service. -/
def httpError (w : ResponseWriter) (error : String) (code : Nat) : ResponseWriter :=
  let w1 := { w with header := w.header.Set "Content-Type" "text/plain; charset=utf-8" }
  let w2 := { w1 with header := w1.header.Set "X-Content-Type-Options" "nosniff" }
  (w2.WriteHeader code).Write (BodyPart.text error)

/-- Function `http.NotFound`. -/
def httpNotFound (w : ResponseWriter) : ResponseWriter :=
  httpError w "404 page not found" StatusNotFound

/-- The local struct `Request` of `createWorkflowHandler`. -/
structure CreateRequest where
  Name : String
  WaitingTime : Duration
deriving DecidableEq, Repr

/-- The parts of `*http.Request` the handlers read: the method, `URL.Path`, the
query pairs in their order of appearance, and the outcome of
`json.NewDecoder(r.Body).Decode(&data)`. -/
structure Request where
  Method : String
  Path : String
  Query : List (String × String)
  Decoded : Except String CreateRequest

/-- Call `r.URL.Query().Get(key)`: the first value of the key, or the empty string. -/
def Request.QueryGet (r : Request) (key : String) : String :=
  (r.Query.lookup key).getD ""

/-! ## the Cadence client, as seen from service.go -/

/-- The fields of `cadenceclient.StartWorkflowOptions` that `createWorkflow` sets. -/
structure StartWorkflowOptions where
  ID : String
  TaskList : String
  ExecutionStartToCloseTimeout : Duration
deriving DecidableEq, Repr

/-- The engine's `WorkflowExecution`. -/
structure WorkflowExecution where
  ID : String
  RunID : String
deriving DecidableEq, Repr

/-- The engine's `encoded.Value`, reduced to the outcome of `value.Get(&state)`. -/
structure EncodedValue where
  Get : Except String State

/-- The two remote calls of `cadenceclient.Client` used by the service.  The first
argument is the timeout of the context; the workflow function passed to
`StartWorkflow` is always `workflow.StartWorkflow` and is left out. -/
structure Client where
  StartWorkflow : Duration → StartWorkflowOptions → Duration → Except String WorkflowExecution
  QueryWorkflow : Duration → String → String → String → Except String EncodedValue

/-- A remote call as made by the service, with its arguments. -/
inductive EngineCall where
  | StartWorkflow (timeout : Duration) (options : StartWorkflowOptions) (waitingTime : Duration)
  | QueryWorkflow (timeout : Duration) (workflowID runID queryType : String)
deriving DecidableEq, Repr

/-- The field of `CadenceConfig` the service reads. -/
structure CadenceConfig where
  TaskListName : String

/-! ## service.go -/

/-- Struct `WorkflowExecutionReference`. -/
structure WorkflowExecutionReference where
  id : String
  state : State
deriving DecidableEq, Repr

/-- Struct `Service`. -/
structure Service where
  WorkflowClient : Client
  CadenceConfig : CadenceConfig

/-- Method `Service.createWorkflow`, with the log of its remote calls. -/
def Service.createWorkflow (s : Service) (name : String) (waitingTime : Duration) :
    Except String WorkflowExecutionReference × List EngineCall :=
  let workflowOptions : StartWorkflowOptions :=
    { ID := name
      TaskList := s.CadenceConfig.TaskListName
      ExecutionStartToCloseTimeout := wrap64 (waitingTime + Second) }
  let timeout := wrap64 (4 * Second)
  let calls := [EngineCall.StartWorkflow timeout workflowOptions waitingTime]
  match s.WorkflowClient.StartWorkflow timeout workflowOptions waitingTime with
  | Except.error err => (Except.error err, calls)
  | Except.ok exec => (Except.ok { id := exec.ID, state := State_STARTED }, calls)

/-- Method `Service.findWorkflowById`, with the log of its remote calls. -/
def Service.findWorkflowById (s : Service) (id : String) :
    Except String WorkflowExecutionReference × List EngineCall :=
  let timeout := wrap64 (4 * Second)
  let calls := [EngineCall.QueryWorkflow timeout id "" "state"]
  match s.WorkflowClient.QueryWorkflow timeout id "" "state" with
  | Except.error err => (Except.error err, calls)
  | Except.ok value =>
    match value.Get with
    | Except.error err => (Except.error err, calls)
    | Except.ok state => (Except.ok { id := id, state := state }, calls)

/-- Method `Service.createWorkflowHandler` (POST /workflow). -/
def Service.createWorkflowHandler (s : Service) (w : ResponseWriter) (r : Request) :
    ResponseWriter × List EngineCall :=
  match r.Decoded with
  | Except.error err => (httpError w err StatusBadRequest, [])
  | Except.ok data =>
    let waitingTime := wrap64 (data.WaitingTime * Second)
    if waitingTime < wrap64 (30 * Second) then
      (httpError w "400 bad request" StatusBadRequest, [])
    else
      match s.createWorkflow data.Name waitingTime with
      | (Except.error err, calls) => (httpError w err StatusInternalServerError, calls)
      | (Except.ok exec, calls) =>
        let w1 := { w with header := w.header.Set "Content-Type" "application/json" }
        let w2 := { w1 with header := w1.header.Set "Location" "/workflow/status" }
        let w3 := { w2 with header := w2.header.Set "Retry-After" "1" }
        let w4 := w3.WriteHeader StatusAccepted
        (w4.Write (BodyPart.json [("id", exec.id)]), calls)

/-- Method `Service.workflowStatusHandler` (GET /workflow/status). -/
def Service.workflowStatusHandler (s : Service) (w : ResponseWriter) (r : Request) :
    ResponseWriter × List EngineCall :=
  let id := r.QueryGet "id"
  if id = "" then
    (httpError w "400 bad request" StatusBadRequest, [])
  else
    match s.findWorkflowById id with
    | (Except.error _, calls) => (httpNotFound w, calls)
    | (Except.ok exec, calls) =>
      if exec.state = State_STARTED then
        (w.WriteHeader StatusOK, calls)
      else
        let w1 := { w with header := w.header.Add "Location" "/workflow/result" }
        (w1.WriteHeader StatusFound, calls)

/-- Method `Service.workflowResultHandler` (GET /workflow/result). -/
def Service.workflowResultHandler (s : Service) (w : ResponseWriter) (r : Request) :
    ResponseWriter × List EngineCall :=
  let id := r.QueryGet "id"
  if id = "" then
    (httpError w "400 bad request" StatusBadRequest, [])
  else
    match s.findWorkflowById id with
    | (Except.error _, calls) => (httpNotFound w, calls)
    | (Except.ok exec, calls) =>
      let w1 := w.WriteHeader StatusOK
      (w1.Write (BodyPart.json [("status", State_name_at exec.state)]), calls)

/-- The value of `time.Unix(0, 0).Format(http.TimeFormat)` in UTC. -/
def epochHTTPTime : String := "Thu, 01 Jan 1970 00:00:00 GMT"

/-- Method `Service.Handler`: the response written and the remote calls made. -/
def Service.Handler (s : Service) (w : ResponseWriter) (r : Request) :
    ResponseWriter × List EngineCall :=
  let w1 := { w with header := w.header.Set "Cache-Control" "no-cache, private, max-age=0" }
  let w2 := { w1 with header := w1.header.Set "Expires" epochHTTPTime }
  if r.Method = "OPTIONS" then
    let w3 := { w2 with header := w2.header.Add "Connection" "keep-alive" }
    let w4 := { w3 with header := w3.header.Add "Access-Control-Allow-Origin" "*" }
    let w5 := { w4 with header := w4.header.Add "Access-Control-Allow-Methods" "OPTIONS, GET, POST" }
    let w6 := { w5 with header := w5.header.Add "Access-Control-Allow-Headers" "content-type" }
    (w6, [])
  else if r.Path = "/workflow" then
    if r.Method = "POST" then
      s.createWorkflowHandler w2 r
    else
      let w3 := { w2 with header := w2.header.Set "Allow" "POST" }
      (httpError w3 "405 method not allowed" StatusMethodNotAllowed, [])
  else if r.Path = "/workflow/status" then
    if r.Method = "GET" then
      s.workflowStatusHandler w2 r
    else
      let w3 := { w2 with header := w2.header.Set "Allow" "GET" }
      (httpError w3 "405 method not allowed" StatusMethodNotAllowed, [])
  else if r.Path = "/workflow/result" then
    if r.Method = "GET" then
      s.workflowResultHandler w2 r
    else
      let w3 := { w2 with header := w2.header.Set "Allow" "GET" }
      (httpError w3 "405 method not allowed" StatusMethodNotAllowed, [])
  else
    (httpNotFound w2, [])

/-- The handler as the server runs it: on a fresh writer. -/
def Service.serve (s : Service) (r : Request) : ResponseWriter × List EngineCall :=
  s.Handler ResponseWriter.new r

/-! ## sample inputs -/

/-- A client whose engine accepts every start request under the requested id and
answers every query with the given state. -/
def acceptingClient (state : State) : Client :=
  { StartWorkflow := fun _ options _ => Except.ok { ID := options.ID, RunID := "run-1" }
    QueryWorkflow := fun _ _ _ _ => Except.ok { Get := Except.ok state } }

/-- A client whose engine knows no execution. -/
def emptyClient : Client :=
  { StartWorkflow := fun _ _ _ => Except.error "start refused"
    QueryWorkflow := fun _ _ _ _ => Except.error "EntityNotExistsError" }

/-- A service over a client, on the task list of the integration test. -/
def serviceOf (c : Client) : Service :=
  { WorkflowClient := c, CadenceConfig := { TaskListName := "test-tasks" } }

/-- A POST /workflow request whose body decoded to the given name and waiting time. -/
def postWorkflow (name : String) (waitingTime : Int) : Request :=
  { Method := "POST", Path := "/workflow", Query := [],
    Decoded := Except.ok { Name := name, WaitingTime := waitingTime } }

/-- A GET request to a path with the given query pairs. -/
def getRequest (path : String) (query : List (String × String)) : Request :=
  { Method := "GET", Path := path, Query := query, Decoded := Except.error "EOF" }

/-- An engine-side environment in which the handler registers and the activity succeeds. -/
def okEnv : WorkflowEnv :=
  { SetQueryHandler := fun _ => none, ExecuteActivity := fun _ _ => Except.ok true }

/-- An engine-side environment in which the activity fails. -/
def failEnv : WorkflowEnv :=
  { SetQueryHandler := fun _ => none, ExecuteActivity := fun _ _ => Except.error "TimeoutType: START_TO_CLOSE" }

/-- An engine-side environment in which registering the query handler fails. -/
def noHandlerEnv : WorkflowEnv :=
  { SetQueryHandler := fun _ => some "query handler must be function", ExecuteActivity := fun _ _ => Except.ok true }

/-- A client that answers a state query from the record of a run after `n` steps. -/
def clientAt (env : WorkflowEnv) (waitingTime : Duration) (n : Nat) : Client :=
  { StartWorkflow := fun _ options _ => Except.ok { ID := options.ID, RunID := "" }
    QueryWorkflow := fun _ _ _ _ =>
      match queryState (configAt env waitingTime n) with
      | Except.ok st => Except.ok { Get := Except.ok st }
      | Except.error err => Except.error err }

/-- The response of a status poll that finds the job still running. -/
def runningResponse : ResponseWriter :=
  { header := ((Header.mk []).Set "Cache-Control" "no-cache, private, max-age=0").Set
      "Expires" epochHTTPTime, status := some 200, body := [] }

/-- The response of a status poll that finds the job in any other state. -/
def redirectResponse : ResponseWriter :=
  { header := (((Header.mk []).Set "Cache-Control" "no-cache, private, max-age=0").Set
      "Expires" epochHTTPTime).Add "Location" "/workflow/result", status := some 302, body := [] }

/-- The status poll answered from the record of a run after `n` steps. -/
def pollStatus (env : WorkflowEnv) (waitingTime : Duration) (id : String) (n : Nat) : ResponseWriter :=
  ((serviceOf (clientAt env waitingTime n)).serve (getRequest "/workflow/status" [("id", id)])).1


/-! ## helper lemmas: arithmetic of durations -/

theorem wrap64_seconds (w : Int) (hlo : -9223372036 ≤ w) (hhi : w ≤ 9223372036) :
    wrap64 (w * Second) = w * 1000000000 := by
  unfold wrap64 Second
  omega

/-! ## helper lemmas: the gateway operations -/

theorem createWorkflow_eq (s : Service) (name : String) (waitingTime : Duration) :
    s.createWorkflow name waitingTime =
      (match s.WorkflowClient.StartWorkflow 4000000000
          { ID := name, TaskList := s.CadenceConfig.TaskListName,
            ExecutionStartToCloseTimeout := wrap64 (waitingTime + 1000000000) } waitingTime with
        | Except.error err => Except.error err
        | Except.ok exec => Except.ok { id := exec.ID, state := State_STARTED },
       [EngineCall.StartWorkflow 4000000000
          { ID := name, TaskList := s.CadenceConfig.TaskListName,
            ExecutionStartToCloseTimeout := wrap64 (waitingTime + 1000000000) } waitingTime]) := by
  unfold Service.createWorkflow
  have h4 : wrap64 (4 * 1000000000) = 4000000000 := by decide
  have h1 : Second = 1000000000 := rfl
  simp only [h1, h4]
  split <;> simp_all

theorem findWorkflowById_calls (s : Service) (id : String) :
    (s.findWorkflowById id).2 = [EngineCall.QueryWorkflow 4000000000 id "" "state"] := by
  unfold Service.findWorkflowById
  have h4 : wrap64 (4 * Second) = 4000000000 := by decide
  simp only [h4]
  cases s.WorkflowClient.QueryWorkflow 4000000000 id "" "state" with
  | error e => rfl
  | ok v =>
    cases hv : v.Get with
    | error e => simp [hv]
    | ok st => simp [hv]

theorem findWorkflowById_eq (s : Service) (id : String) :
    s.findWorkflowById id =
      ((s.findWorkflowById id).1, [EngineCall.QueryWorkflow 4000000000 id "" "state"]) := by
  rw [← findWorkflowById_calls]

/-- The query fails, or its value cannot be decoded: `findWorkflowById` returns an error. -/
theorem findWorkflowById_error (s : Service) (id : String)
    (hq : (∃ e, s.WorkflowClient.QueryWorkflow 4000000000 id "" "state" = Except.error e) ∨
      (∃ v e, s.WorkflowClient.QueryWorkflow 4000000000 id "" "state" = Except.ok v ∧
        v.Get = Except.error e)) :
    ∃ e, (s.findWorkflowById id).1 = Except.error e := by
  have h4 : wrap64 (4 * Second) = 4000000000 := by decide
  unfold Service.findWorkflowById
  simp only [h4]
  rcases hq with ⟨e, he⟩ | ⟨v, e, hv, he⟩
  · exact ⟨e, by rw [he]⟩
  · exact ⟨e, by rw [hv]; simp only [he]⟩

theorem State_name_at_undefined (st : State) (h0 : st ≠ 0) (h1 : st ≠ 1) (h2 : st ≠ 2) :
    State_name_at st = "" := by
  have hb0 : (st == 0) = false := beq_eq_false_iff_ne.mpr h0
  have hb1 : (st == 1) = false := beq_eq_false_iff_ne.mpr h1
  have hb2 : (st == 2) = false := beq_eq_false_iff_ne.mpr h2
  simp only [State_name_at, State_name, List.lookup, hb0, hb1, hb2]
  rfl

/-! ## helper lemmas: routing -/

theorem serve_create (s : Service) (r : Request) (hm : r.Method = "POST")
    (hp : r.Path = "/workflow") :
    s.serve r = s.createWorkflowHandler
      { header := ((Header.mk []).Set "Cache-Control" "no-cache, private, max-age=0").Set
          "Expires" epochHTTPTime, status := none, body := [] } r := by
  unfold Service.serve Service.Handler
  simp [hm, hp, ResponseWriter.new]

theorem serve_status (s : Service) (r : Request) (hm : r.Method = "GET")
    (hp : r.Path = "/workflow/status") :
    s.serve r = s.workflowStatusHandler
      { header := ((Header.mk []).Set "Cache-Control" "no-cache, private, max-age=0").Set
          "Expires" epochHTTPTime, status := none, body := [] } r := by
  unfold Service.serve Service.Handler
  simp [hm, hp, ResponseWriter.new]

theorem serve_result (s : Service) (r : Request) (hm : r.Method = "GET")
    (hp : r.Path = "/workflow/result") :
    s.serve r = s.workflowResultHandler
      { header := ((Header.mk []).Set "Cache-Control" "no-cache, private, max-age=0").Set
          "Expires" epochHTTPTime, status := none, body := [] } r := by
  unfold Service.serve Service.Handler
  simp [hm, hp, ResponseWriter.new]

/-! ## helper lemmas: the run of StartWorkflow -/

theorem step_returned (env : WorkflowEnv) (wt : Duration) (c : Config) (e : Option String)
    (h : c.pc = PC.returned e) : Config.step env wt c = c := by
  unfold Config.step
  rw [h]

/-- Two steps reach the return of `StartWorkflow`, with its final state and error. -/
theorem configAt_two_returned (env : WorkflowEnv) (wt : Duration) :
    (configAt env wt 2).pc = PC.returned (StartWorkflow env wt).2 ∧
    (configAt env wt 2).currentState = (StartWorkflow env wt).1 := by
  show (Config.step env wt (Config.step env wt Config.init)).pc = _ ∧
    (Config.step env wt (Config.step env wt Config.init)).currentState = _
  unfold StartWorkflow
  cases hq : env.SetQueryHandler "state" with
  | some e => simp [Config.step, Config.init, hq, Id.run]
  | none =>
    cases ha : env.ExecuteActivity (activityOptions wt) wt with
    | error e => simp [Config.step, Config.init, hq, ha, Id.run]
    | ok b => simp [Config.step, Config.init, hq, ha, Id.run]

theorem configAt_stable (env : WorkflowEnv) (wt : Duration) (n : Nat) :
    configAt env wt (n + 2) = configAt env wt 2 := by
  induction n with
  | zero => rfl
  | succ k ih =>
    show Config.step env wt (configAt env wt (k + 2)) = configAt env wt 2
    rw [ih]
    exact step_returned env wt _ _ (configAt_two_returned env wt).1

/-- Every record of a run is one of the first three. -/
theorem configAt_cases (env : WorkflowEnv) (wt : Duration) (n : Nat) :
    (n = 0 ∧ configAt env wt n = Config.init) ∨
    (n = 1 ∧ configAt env wt n = Config.step env wt Config.init) ∨
    (2 ≤ n ∧ configAt env wt n = configAt env wt 2) := by
  rcases n with _ | _ | k
  · exact Or.inl ⟨rfl, rfl⟩
  · exact Or.inr (Or.inl ⟨rfl, rfl⟩)
  · exact Or.inr (Or.inr ⟨by omega, configAt_stable env wt k⟩)

/-- The answers of the "state" query along a run: none at all when registration
fails; otherwise none before registration, `STARTED` while the activity runs, and one
fixed terminal state from the return on. -/
theorem query_cases (env : WorkflowEnv) (wt : Duration) :
    (∀ n st, queryState (configAt env wt n) ≠ Except.ok st) ∨
    ((∀ st, queryState (configAt env wt 0) ≠ Except.ok st) ∧
      queryState (configAt env wt 1) = Except.ok State_STARTED ∧
      ∃ fin, (fin = State_COMPLETED ∨ fin = State_FAILED) ∧
        ∀ n, 2 ≤ n → queryState (configAt env wt n) = Except.ok fin) := by
  cases hq : env.SetQueryHandler "state" with
  | some e =>
    left
    intro n st
    rcases configAt_cases env wt n with ⟨_, h⟩ | ⟨_, h⟩ | ⟨_, h⟩
    · rw [h]; simp [Config.init, queryState]
    · rw [h]; simp [Config.step, Config.init, queryState, hq]
    · rw [h]
      show queryState (Config.step env wt (Config.step env wt Config.init)) ≠ _
      simp [Config.step, Config.init, queryState, hq]
  | none =>
    right
    refine ⟨?_, ?_, ?_⟩
    · intro st
      simp [configAt, Config.init, queryState]
    · simp [configAt, Config.step, Config.init, queryState, hq]
    · cases ha : env.ExecuteActivity (activityOptions wt) wt with
      | error e =>
        refine ⟨State_FAILED, Or.inr rfl, ?_⟩
        intro n hn
        obtain ⟨k, rfl⟩ : ∃ k, n = k + 2 := ⟨n - 2, by omega⟩
        rw [configAt_stable]
        simp [configAt, Config.step, Config.init, queryState, hq, ha]
      | ok b =>
        refine ⟨State_COMPLETED, Or.inl rfl, ?_⟩
        intro n hn
        obtain ⟨k, rfl⟩ : ∃ k, n = k + 2 := ⟨n - 2, by omega⟩
        rw [configAt_stable]
        simp [configAt, Config.step, Config.init, queryState, hq, ha]

theorem queryState_settles (env : WorkflowEnv) (wt : Duration) (m n : Nat) (st : State)
    (hmn : m ≤ n) (hq : queryState (configAt env wt m) = Except.ok st) :
    (st = State_STARTED ∨ st = State_COMPLETED ∨ st = State_FAILED) ∧
    ∃ st2, queryState (configAt env wt n) = Except.ok st2 ∧
      (st2 = State_STARTED ∨ st2 = State_COMPLETED ∨ st2 = State_FAILED) ∧
      (st ≠ State_STARTED → st2 = st) := by
  rcases query_cases env wt with hnone | ⟨h0, h1, fin, hfin, h2⟩
  · exact absurd hq (hnone m st)
  · have hfin3 : fin = State_STARTED ∨ fin = State_COMPLETED ∨ fin = State_FAILED := Or.inr hfin
    rcases Nat.lt_or_ge m 2 with hm | hm
    · have hm1 : m = 1 := by
        rcases Nat.eq_zero_or_pos m with h | h
        · subst h; exact absurd hq (h0 st)
        · omega
      subst hm1
      rw [h1] at hq
      have hst : st = State_STARTED := (Except.ok.inj hq).symm
      subst hst
      refine ⟨Or.inl rfl, ?_⟩
      rcases Nat.lt_or_ge n 2 with hn | hn
      · have hn1 : n = 1 := by omega
        subst hn1
        exact ⟨State_STARTED, h1, Or.inl rfl, fun h => absurd rfl h⟩
      · exact ⟨fin, h2 n hn, hfin3, fun h => absurd rfl h⟩
    · rw [h2 m hm] at hq
      have hst : st = fin := (Except.ok.inj hq).symm
      subst hst
      exact ⟨hfin3, st, h2 n (by omega), hfin3, fun _ => rfl⟩

theorem pollStatus_ok (env : WorkflowEnv) (wt : Duration) (id : String) (n : Nat) (st : State)
    (hid : id ≠ "") (hq : queryState (configAt env wt n) = Except.ok st) :
    pollStatus env wt id n = if st = State_STARTED then runningResponse else redirectResponse := by
  unfold pollStatus
  rw [serve_status _ _ rfl rfl]
  unfold Service.workflowStatusHandler
  have hget : (getRequest "/workflow/status" [("id", id)]).QueryGet "id" = id := by
    simp [getRequest, Request.QueryGet, List.lookup]
  simp only [hget, hid, if_false]
  have hfind : (serviceOf (clientAt env wt n)).findWorkflowById id =
      (Except.ok { id := id, state := st },
        [EngineCall.QueryWorkflow 4000000000 id "" "state"]) := by
    rw [findWorkflowById_eq]
    unfold Service.findWorkflowById serviceOf clientAt
    simp only [hq]
  rw [hfind]
  dsimp only
  split <;> rfl

/-- Two status polls answered from the query, the second not before the first. -/
theorem status_poll_pair (env : WorkflowEnv) (wt : Duration) (id : String) (m n : Nat)
    (st : State) (hid : id ≠ "") (hmn : m ≤ n)
    (hq : queryState (configAt env wt m) = Except.ok st) :
    (((pollStatus env wt id m).StatusCode = 200 ∧
        (pollStatus env wt id m).header.Has "Location" = false) ∨
      ((pollStatus env wt id m).StatusCode = 302 ∧
        (pollStatus env wt id m).header.Values "Location" = ["/workflow/result"])) ∧
    ((pollStatus env wt id m).StatusCode = 302 → (pollStatus env wt id n).StatusCode = 302) ∧
    ((pollStatus env wt id n).StatusCode = 200 → (pollStatus env wt id m).StatusCode = 200) := by
  obtain ⟨_, st2, hq2, _, hkeep⟩ := queryState_settles env wt m n st hmn hq
  have hpm := pollStatus_ok env wt id m st hid hq
  have hpn := pollStatus_ok env wt id n st2 hid hq2
  refine ⟨?_, ?_, ?_⟩
  · rw [hpm]
    split
    · exact Or.inl ⟨rfl, rfl⟩
    · exact Or.inr ⟨rfl, rfl⟩
  · rw [hpm, hpn]
    by_cases h : st = State_STARTED
    · simp only [h, if_true]
      intro habs
      exact absurd habs (by decide)
    · intro _
      rw [hkeep h]
      simp only [h, if_false]
      rfl
  · rw [hpm, hpn]
    by_cases h : st = State_STARTED
    · intro _
      simp only [h, if_true]
      rfl
    · rw [hkeep h]
      simp only [h, if_false]
      intro habs
      exact absurd habs (by decide)

/-! ## POST /workflow -/

/-- Where the conversion to nanoseconds does not overflow, a waiting time below
30 seconds is rejected with 400 and the engine is not called. -/
theorem createWorkflowHandler_rejects_short_waitingTime (s : Service) (r : Request)
    (name : String) (w : Int)
    (hm : r.Method = "POST") (hp : r.Path = "/workflow")
    (hbody : r.Decoded = Except.ok { Name := name, WaitingTime := w })
    (hlo : -9223372036 ≤ w) (hhi : w < 30) :
    (s.serve r).1.StatusCode = 400 ∧ (s.serve r).2 = [] := by
  have hw : wrap64 (w * Second) = w * 1000000000 := wrap64_seconds w hlo (by omega)
  have h30 : wrap64 (30 * Second) = 30000000000 := by decide
  have hlt : w * 1000000000 < 30000000000 := by omega
  rw [serve_create s r hm hp]
  unfold Service.createWorkflowHandler
  simp only [hbody, hw, h30, hlt, if_true]
  exact ⟨rfl, trivial⟩

/-- C1, at the failing input: the body decodes to name "job-1" and waitingTime
-36028797018963938, an int64 below 30.  The product with `time.Second` wraps to exactly
30 seconds, the check passes, `createWorkflow` calls the engine's `StartWorkflow` with
a 30 second workload, and the response is 202 (not 400). -/
theorem createWorkflowHandler_negative_waitingTime_accepted :
    isInt64 (-36028797018963938) ∧ (-36028797018963938 : Int) < 30 ∧
    wrap64 (-36028797018963938 * Second) = wrap64 (30 * Second) ∧
    ((serviceOf (acceptingClient State_STARTED)).serve
        (postWorkflow "job-1" (-36028797018963938))).1.StatusCode = 202 ∧
    ((serviceOf (acceptingClient State_STARTED)).serve
        (postWorkflow "job-1" (-36028797018963938))).2 =
      [EngineCall.StartWorkflow 4000000000
        { ID := "job-1", TaskList := "test-tasks", ExecutionStartToCloseTimeout := 31000000000 }
        30000000000] := by
  refine ⟨by decide, by decide, by decide, by decide, by decide⟩

/-- C2, at the failing input: the body decodes to name "job-1" and waitingTime
36028797018963968, an int64 not below 30, and the engine accepts every start request
under the requested id.  The product with `time.Second` wraps to 0, the check
rejects it, the engine is never called, and the response is 400 (not 202). -/
theorem createWorkflowHandler_large_waitingTime_rejected :
    isInt64 36028797018963968 ∧ (36028797018963968 : Int) ≥ 30 ∧
    (∀ t options wt, (acceptingClient State_STARTED).StartWorkflow t options wt
      = Except.ok { ID := options.ID, RunID := "run-1" }) ∧
    wrap64 (36028797018963968 * Second) = 0 ∧
    ((serviceOf (acceptingClient State_STARTED)).serve
      (postWorkflow "job-1" 36028797018963968)).1.StatusCode = 400 ∧
    ((serviceOf (acceptingClient State_STARTED)).serve
      (postWorkflow "job-1" 36028797018963968)).1.header.Has "Location" = false ∧
    ((serviceOf (acceptingClient State_STARTED)).serve
      (postWorkflow "job-1" 36028797018963968)).2 = [] := by
  refine ⟨by decide, by decide, fun _ _ _ => rfl, by decide, by decide, by decide, by decide⟩

/-- Where the conversion to nanoseconds does not overflow (30 ≤ waitingTime ≤
9223372036), and the engine accepts the start request and returns the requested id, the
response is 202 with Location "/workflow/status", Retry-After "1" and the JSON body
with id equal to the submitted name.  The engine is called once, with the name as id. -/
theorem createWorkflowHandler_accepted (s : Service) (r : Request) (name : String) (w : Int)
    (exec : WorkflowExecution)
    (hm : r.Method = "POST") (hp : r.Path = "/workflow")
    (hbody : r.Decoded = Except.ok { Name := name, WaitingTime := w })
    (hlo : 30 ≤ w) (hhi : w ≤ 9223372036)
    (hstart : s.WorkflowClient.StartWorkflow 4000000000
        { ID := name, TaskList := s.CadenceConfig.TaskListName,
          ExecutionStartToCloseTimeout := wrap64 (w * 1000000000 + 1000000000) }
        (w * 1000000000) = Except.ok exec)
    (hid : exec.ID = name) :
    (s.serve r).1.StatusCode = 202 ∧
    (s.serve r).1.header.Get "Location" = "/workflow/status" ∧
    (s.serve r).1.header.Get "Retry-After" = "1" ∧
    (s.serve r).1.body = [BodyPart.json [("id", name)]] ∧
    (s.serve r).2 = [EngineCall.StartWorkflow 4000000000
        { ID := name, TaskList := s.CadenceConfig.TaskListName,
          ExecutionStartToCloseTimeout := wrap64 (w * 1000000000 + 1000000000) }
        (w * 1000000000)] := by
  have hw : wrap64 (w * Second) = w * 1000000000 := wrap64_seconds w (by omega) hhi
  have h30 : wrap64 (30 * Second) = 30000000000 := by decide
  have hge : ¬ (w * 1000000000 < 30000000000) := by omega
  rw [serve_create s r hm hp]
  unfold Service.createWorkflowHandler
  simp only [hbody, hw, h30, hge, if_false]
  rw [createWorkflow_eq, hstart]
  subst hid
  exact ⟨rfl, rfl, rfl, rfl, rfl⟩

/-- The request of the integration test, name "job-1" and waitingTime 30, is accepted. -/
theorem createWorkflowHandler_accepted_at_test_request :
    ((serviceOf (acceptingClient State_STARTED)).serve (postWorkflow "job-1" 30)).1.StatusCode
      = 202 ∧
    ((serviceOf (acceptingClient State_STARTED)).serve (postWorkflow "job-1" 30)).1.header.Get
      "Location" = "/workflow/status" ∧
    ((serviceOf (acceptingClient State_STARTED)).serve (postWorkflow "job-1" 30)).1.header.Get
      "Retry-After" = "1" ∧
    ((serviceOf (acceptingClient State_STARTED)).serve (postWorkflow "job-1" 30)).1.body
      = [BodyPart.json [("id", "job-1")]] :=
  have h := createWorkflowHandler_accepted (serviceOf (acceptingClient State_STARTED))
    (postWorkflow "job-1" 30) "job-1" 30 { ID := "job-1", RunID := "run-1" }
    rfl rfl rfl (by decide) (by decide) rfl rfl
  ⟨h.1, h.2.1, h.2.2.1, h.2.2.2.1⟩

/-! ## GET /workflow/status and GET /workflow/result -/

/-- C3: a GET /workflow/status with a non-empty id for which `findWorkflowById`
succeeds answers 200 without a Location header when the state is STARTED, and 302 with
Location "/workflow/result" when the state is COMPLETED or FAILED. -/
theorem workflowStatusHandler_status_by_state (s : Service) (r : Request)
    (ref : WorkflowExecutionReference)
    (hm : r.Method = "GET") (hp : r.Path = "/workflow/status")
    (hid : r.QueryGet "id" ≠ "")
    (hfind : (s.findWorkflowById (r.QueryGet "id")).1 = Except.ok ref) :
    (ref.state = State_STARTED →
      (s.serve r).1.StatusCode = 200 ∧ (s.serve r).1.header.Has "Location" = false) ∧
    (ref.state = State_COMPLETED ∨ ref.state = State_FAILED →
      (s.serve r).1.StatusCode = 302 ∧
      (s.serve r).1.header.Values "Location" = ["/workflow/result"]) := by
  rw [serve_status s r hm hp]
  unfold Service.workflowStatusHandler
  simp only [hid, if_false]
  rw [findWorkflowById_eq, hfind]
  constructor
  · intro hs
    simp only [hs, if_true]
    exact ⟨rfl, rfl⟩
  · intro hs
    have hne : ref.state ≠ State_STARTED := by
      rcases hs with h | h <;> rw [h] <;> decide
    simp only [hne, if_false]
    exact ⟨rfl, rfl⟩

/-- C3 on a job the engine reports as FAILED: 302 and the result location. -/
theorem workflowStatusHandler_status_by_state_witness :
    ((getRequest "/workflow/status" [("id", "job-1")]).QueryGet "id" ≠ "") ∧
    ((serviceOf (acceptingClient State_FAILED)).serve
      (getRequest "/workflow/status" [("id", "job-1")])).1.StatusCode = 302 ∧
    ((serviceOf (acceptingClient State_FAILED)).serve
      (getRequest "/workflow/status" [("id", "job-1")])).1.header.Values "Location"
      = ["/workflow/result"] :=
  ⟨by decide,
    (workflowStatusHandler_status_by_state (serviceOf (acceptingClient State_FAILED))
      (getRequest "/workflow/status" [("id", "job-1")]) { id := "job-1", state := State_FAILED }
      rfl rfl (by decide) rfl).2 (Or.inr rfl)⟩

/-- C4: a GET /workflow/result with a non-empty id for which `findWorkflowById`
succeeds answers 200 with the JSON body whose status is "started" for STARTED,
"completed" for COMPLETED and "failed" for FAILED. -/
theorem workflowResultHandler_state_name (s : Service) (r : Request)
    (ref : WorkflowExecutionReference)
    (hm : r.Method = "GET") (hp : r.Path = "/workflow/result")
    (hid : r.QueryGet "id" ≠ "")
    (hfind : (s.findWorkflowById (r.QueryGet "id")).1 = Except.ok ref) :
    (ref.state = State_STARTED →
      (s.serve r).1.StatusCode = 200 ∧
      (s.serve r).1.body = [BodyPart.json [("status", "started")]]) ∧
    (ref.state = State_COMPLETED →
      (s.serve r).1.StatusCode = 200 ∧
      (s.serve r).1.body = [BodyPart.json [("status", "completed")]]) ∧
    (ref.state = State_FAILED →
      (s.serve r).1.StatusCode = 200 ∧
      (s.serve r).1.body = [BodyPart.json [("status", "failed")]]) := by
  rw [serve_result s r hm hp]
  unfold Service.workflowResultHandler
  simp only [hid, if_false]
  rw [findWorkflowById_eq, hfind]
  dsimp only
  refine ⟨?_, ?_, ?_⟩ <;> intro hs <;> rw [hs] <;> exact ⟨rfl, rfl⟩

/-- C4 on a job that is still STARTED: 200 with "started". -/
theorem workflowResultHandler_state_name_witness :
    ((getRequest "/workflow/result" [("id", "job-1")]).QueryGet "id" ≠ "") ∧
    ((serviceOf (acceptingClient State_STARTED)).serve
      (getRequest "/workflow/result" [("id", "job-1")])).1.StatusCode = 200 ∧
    ((serviceOf (acceptingClient State_STARTED)).serve
      (getRequest "/workflow/result" [("id", "job-1")])).1.body
      = [BodyPart.json [("status", "started")]] :=
  ⟨by decide,
    (workflowResultHandler_state_name (serviceOf (acceptingClient State_STARTED))
      (getRequest "/workflow/result" [("id", "job-1")]) { id := "job-1", state := State_STARTED }
      rfl rfl (by decide) rfl).1 rfl⟩

/-- C5: a GET to /workflow/status or /workflow/result with a non-empty id for which
the engine query fails, or returns a value that cannot be decoded, answers 404, and
neither 200 nor 302. -/
theorem query_failure_not_found (s : Service) (r : Request)
    (hm : r.Method = "GET")
    (hp : r.Path = "/workflow/status" ∨ r.Path = "/workflow/result")
    (hid : r.QueryGet "id" ≠ "")
    (hq : (∃ e, s.WorkflowClient.QueryWorkflow 4000000000 (r.QueryGet "id") "" "state"
          = Except.error e) ∨
      (∃ v e, s.WorkflowClient.QueryWorkflow 4000000000 (r.QueryGet "id") "" "state"
          = Except.ok v ∧ v.Get = Except.error e)) :
    (s.serve r).1.StatusCode = 404 ∧ (s.serve r).1.StatusCode ≠ 200 ∧
    (s.serve r).1.StatusCode ≠ 302 := by
  obtain ⟨e, he⟩ := findWorkflowById_error s (r.QueryGet "id") hq
  have h404 : (s.serve r).1.StatusCode = 404 := by
    rcases hp with hp | hp
    · rw [serve_status s r hm hp]
      unfold Service.workflowStatusHandler
      simp only [hid, if_false]
      rw [findWorkflowById_eq, he]
      rfl
    · rw [serve_result s r hm hp]
      unfold Service.workflowResultHandler
      simp only [hid, if_false]
      rw [findWorkflowById_eq, he]
      rfl
  refine ⟨h404, ?_, ?_⟩ <;> rw [h404] <;> decide

/-- C5 on an engine that knows no execution, at the result endpoint. -/
theorem query_failure_not_found_witness :
    ((getRequest "/workflow/result" [("id", "nobody")]).QueryGet "id" ≠ "") ∧
    (emptyClient.QueryWorkflow 4000000000 "nobody" "" "state"
      = Except.error "EntityNotExistsError") ∧
    ((serviceOf emptyClient).serve
      (getRequest "/workflow/result" [("id", "nobody")])).1.StatusCode = 404 :=
  ⟨by decide, rfl,
    (query_failure_not_found (serviceOf emptyClient)
      (getRequest "/workflow/result" [("id", "nobody")]) rfl (Or.inr rfl) (by decide)
      (Or.inl ⟨"EntityNotExistsError", rfl⟩)).1⟩

/-- C6: a GET to /workflow/status or /workflow/result whose query has no id, or an
empty one, answers 400 and the engine is not queried. -/
theorem missing_id_bad_request (s : Service) (r : Request)
    (hm : r.Method = "GET")
    (hp : r.Path = "/workflow/status" ∨ r.Path = "/workflow/result")
    (hid : r.Query.lookup "id" = none ∨ r.Query.lookup "id" = some "") :
    (s.serve r).1.StatusCode = 400 ∧ (s.serve r).2 = [] := by
  have hget : r.QueryGet "id" = "" := by
    unfold Request.QueryGet
    rcases hid with h | h <;> rw [h] <;> rfl
  rcases hp with hp | hp
  · rw [serve_status s r hm hp]
    unfold Service.workflowStatusHandler
    simp only [hget, if_true]
    exact ⟨rfl, trivial⟩
  · rw [serve_result s r hm hp]
    unfold Service.workflowResultHandler
    simp only [hget, if_true]
    exact ⟨rfl, trivial⟩

/-- C6 at the status endpoint with a query that has another parameter only. -/
theorem missing_id_bad_request_witness :
    ((getRequest "/workflow/status" [("name", "job-1")]).Query.lookup "id" = none) ∧
    ((serviceOf (acceptingClient State_COMPLETED)).serve
      (getRequest "/workflow/status" [("name", "job-1")])).1.StatusCode = 400 ∧
    ((serviceOf (acceptingClient State_COMPLETED)).serve
      (getRequest "/workflow/status" [("name", "job-1")])).2 = [] :=
  ⟨by decide,
    missing_id_bad_request (serviceOf (acceptingClient State_COMPLETED))
      (getRequest "/workflow/status" [("name", "job-1")]) rfl (Or.inl rfl) (Or.inl (by decide))⟩

/-- C10: when a successful query returns a state other than 0, 1 and 2, GET
/workflow/status answers 302 with Location "/workflow/result", and GET /workflow/result
answers 200 with the empty string as status. -/
theorem undefined_state_responses (s : Service) (r : Request)
    (ref : WorkflowExecutionReference)
    (hm : r.Method = "GET") (hid : r.QueryGet "id" ≠ "")
    (hfind : (s.findWorkflowById (r.QueryGet "id")).1 = Except.ok ref)
    (h0 : ref.state ≠ 0) (h1 : ref.state ≠ 1) (h2 : ref.state ≠ 2) :
    (r.Path = "/workflow/status" →
      (s.serve r).1.StatusCode = 302 ∧
      (s.serve r).1.header.Values "Location" = ["/workflow/result"]) ∧
    (r.Path = "/workflow/result" →
      (s.serve r).1.StatusCode = 200 ∧
      (s.serve r).1.body = [BodyPart.json [("status", "")]]) := by
  constructor
  · intro hp
    rw [serve_status s r hm hp]
    unfold Service.workflowStatusHandler
    simp only [hid, if_false]
    rw [findWorkflowById_eq, hfind]
    have hne : ref.state ≠ State_STARTED := h0
    simp only [hne, if_false]
    exact ⟨rfl, rfl⟩
  · intro hp
    rw [serve_result s r hm hp]
    unfold Service.workflowResultHandler
    simp only [hid, if_false]
    rw [findWorkflowById_eq, hfind]
    dsimp only
    rw [State_name_at_undefined ref.state h0 h1 h2]
    exact ⟨rfl, rfl⟩

/-- C10 at the state value -1, on the result endpoint. -/
theorem undefined_state_responses_witness :
    ((-1 : State) ≠ 0 ∧ (-1 : State) ≠ 1 ∧ (-1 : State) ≠ 2) ∧
    ((serviceOf (acceptingClient (-1))).serve
      (getRequest "/workflow/result" [("id", "job-1")])).1.StatusCode = 200 ∧
    ((serviceOf (acceptingClient (-1))).serve
      (getRequest "/workflow/result" [("id", "job-1")])).1.body
      = [BodyPart.json [("status", "")]] :=
  ⟨by decide,
    (undefined_state_responses (serviceOf (acceptingClient (-1)))
      (getRequest "/workflow/result" [("id", "job-1")]) { id := "job-1", state := -1 }
      rfl (by decide) rfl (by decide) (by decide) (by decide)).2 rfl⟩

/-! ## routing -/

/-- C7: for a method other than OPTIONS, a path that is none of /workflow,
/workflow/status, /workflow/result answers 404; one of the three paths with a method
other than its permitted one (POST for /workflow, GET for the other two) answers 405
with exactly that method in Allow; in both cases no engine call is made. -/
theorem Handler_unmatched_route (s : Service) (r : Request) (hopt : r.Method ≠ "OPTIONS") :
    (r.Path ≠ "/workflow" → r.Path ≠ "/workflow/status" → r.Path ≠ "/workflow/result" →
      (s.serve r).1.StatusCode = 404 ∧ (s.serve r).2 = []) ∧
    (r.Path = "/workflow" → r.Method ≠ "POST" →
      (s.serve r).1.StatusCode = 405 ∧ (s.serve r).1.header.Values "Allow" = ["POST"] ∧
      (s.serve r).1.body = [BodyPart.text "405 method not allowed"] ∧ (s.serve r).2 = []) ∧
    (r.Path = "/workflow/status" → r.Method ≠ "GET" →
      (s.serve r).1.StatusCode = 405 ∧ (s.serve r).1.header.Values "Allow" = ["GET"] ∧
      (s.serve r).1.body = [BodyPart.text "405 method not allowed"] ∧ (s.serve r).2 = []) ∧
    (r.Path = "/workflow/result" → r.Method ≠ "GET" →
      (s.serve r).1.StatusCode = 405 ∧ (s.serve r).1.header.Values "Allow" = ["GET"] ∧
      (s.serve r).1.body = [BodyPart.text "405 method not allowed"] ∧ (s.serve r).2 = []) := by
  refine ⟨?_, ?_, ?_, ?_⟩
  · intro h1 h2 h3
    unfold Service.serve Service.Handler
    simp only [hopt, h1, h2, h3, if_false]
    exact ⟨rfl, trivial⟩
  · intro h1 h2
    unfold Service.serve Service.Handler
    simp only [hopt, h1, h2, if_false, if_true]
    exact ⟨rfl, rfl, rfl, trivial⟩
  · intro h1 h2
    unfold Service.serve Service.Handler
    simp only [hopt, h1, h2, if_false]
    exact ⟨rfl, rfl, rfl, rfl⟩
  · intro h1 h2
    unfold Service.serve Service.Handler
    simp only [hopt, h1, h2, if_false]
    exact ⟨rfl, rfl, rfl, rfl⟩

/-- C7 at DELETE /workflow: 405 with Allow POST and no engine call. -/
theorem Handler_unmatched_route_witness :
    ("DELETE" ≠ "OPTIONS" ∧ "DELETE" ≠ "POST") ∧
    ((serviceOf (acceptingClient State_STARTED)).serve
      { Method := "DELETE", Path := "/workflow", Query := [],
        Decoded := Except.error "EOF" }).1.StatusCode = 405 ∧
    ((serviceOf (acceptingClient State_STARTED)).serve
      { Method := "DELETE", Path := "/workflow", Query := [],
        Decoded := Except.error "EOF" }).1.header.Values "Allow" = ["POST"] ∧
    ((serviceOf (acceptingClient State_STARTED)).serve
      { Method := "DELETE", Path := "/workflow", Query := [],
        Decoded := Except.error "EOF" }).2 = [] :=
  have h := (Handler_unmatched_route (serviceOf (acceptingClient State_STARTED))
    { Method := "DELETE", Path := "/workflow", Query := [], Decoded := Except.error "EOF" }
    (by decide)).2.1 rfl (by decide)
  ⟨by decide, h.1, h.2.1, h.2.2.2⟩

/-! ## the job state machine -/

/-- C8: for every waitingTime, `StartWorkflow` ends with its state variable
COMPLETED and no error when the sleep step succeeds; with FAILED and the step's error
when the step fails; with FAILED and the registration error when registering the state
query handler fails.  The run reaches that return after two steps and stays there, and
the registered "state" query answers STARTED at every point before the return. -/
theorem StartWorkflow_final_state (env : WorkflowEnv) (waitingTime : Duration) :
    (∀ b, env.SetQueryHandler "state" = none →
      env.ExecuteActivity (activityOptions waitingTime) waitingTime = Except.ok b →
      StartWorkflow env waitingTime = (State_COMPLETED, none)) ∧
    (∀ e, env.SetQueryHandler "state" = none →
      env.ExecuteActivity (activityOptions waitingTime) waitingTime = Except.error e →
      StartWorkflow env waitingTime = (State_FAILED, some e)) ∧
    (∀ e, env.SetQueryHandler "state" = some e →
      StartWorkflow env waitingTime = (State_FAILED, some e)) ∧
    (∀ n, 2 ≤ n →
      (configAt env waitingTime n).pc = PC.returned (StartWorkflow env waitingTime).2 ∧
      (configAt env waitingTime n).currentState = (StartWorkflow env waitingTime).1) ∧
    (∀ n, (configAt env waitingTime n).pc = PC.executing →
      queryState (configAt env waitingTime n) = Except.ok State_STARTED) ∧
    (∀ n st, (∀ e, (configAt env waitingTime n).pc ≠ PC.returned e) →
      queryState (configAt env waitingTime n) = Except.ok st → st = State_STARTED) := by
  refine ⟨?_, ?_, ?_, ?_, ?_, ?_⟩
  · intro b hq ha
    simp [StartWorkflow, hq, ha, Id.run]
  · intro e hq ha
    simp [StartWorkflow, hq, ha, Id.run]
  · intro e hq
    simp [StartWorkflow, hq, Id.run]
  · intro n hn
    obtain ⟨k, rfl⟩ : ∃ k, n = k + 2 := ⟨n - 2, by omega⟩
    rw [configAt_stable]
    exact configAt_two_returned env waitingTime
  · intro n hpc
    rcases configAt_cases env waitingTime n with ⟨_, h⟩ | ⟨_, h⟩ | ⟨_, h⟩
    · rw [h] at hpc; simp [Config.init] at hpc
    · rw [h] at hpc ⊢
      unfold Config.step Config.init at hpc ⊢
      cases hq : env.SetQueryHandler "state" with
      | some e => simp [hq] at hpc
      | none => simp [hq, queryState]
    · rw [h, (configAt_two_returned env waitingTime).1] at hpc
      simp at hpc
  · intro n st hpc hquery
    rcases configAt_cases env waitingTime n with ⟨_, h⟩ | ⟨_, h⟩ | ⟨_, h⟩
    · rw [h] at hquery; simp [Config.init, queryState] at hquery
    · rw [h] at hpc hquery
      unfold Config.step Config.init at hpc hquery
      cases hq : env.SetQueryHandler "state" with
      | some e => simp [hq] at hpc
      | none =>
        simp [hq, queryState] at hquery
        exact hquery.symm
    · exact absurd (h ▸ (configAt_two_returned env waitingTime).1) (hpc _)

/-- C8 on the three environments: success, failing step, failing registration; and
the query while the step of the successful run is in flight. -/
theorem StartWorkflow_final_state_witness :
    StartWorkflow okEnv 1000000000 = (State_COMPLETED, none) ∧
    StartWorkflow failEnv 1000000000 = (State_FAILED, some "TimeoutType: START_TO_CLOSE") ∧
    StartWorkflow noHandlerEnv 1000000000
      = (State_FAILED, some "query handler must be function") ∧
    (configAt okEnv 1000000000 1).pc = PC.executing ∧
    queryState (configAt okEnv 1000000000 1) = Except.ok State_STARTED :=
  ⟨(StartWorkflow_final_state okEnv 1000000000).1 true rfl rfl,
    (StartWorkflow_final_state failEnv 1000000000).2.1 "TimeoutType: START_TO_CLOSE" rfl rfl,
    (StartWorkflow_final_state noHandlerEnv 1000000000).2.2.1 "query handler must be function" rfl,
    rfl,
    (StartWorkflow_final_state okEnv 1000000000).2.2.2.2.1 1 rfl⟩

/-- C9: along every run of `StartWorkflow`, for every sequence of polls in time order
that the "state" query answers: each answer is STARTED, COMPLETED or FAILED; an answer
other than STARTED is repeated by every later answer; each status response is 200
without Location or 302 with Location "/workflow/result"; after a 302 every later
response is 302, and a 200 is preceded by 200s only. -/
theorem state_query_monotonic (env : WorkflowEnv) (waitingTime : Duration) (id : String)
    (polls : List Nat)
    (hid : id ≠ "") (horder : polls.Pairwise (fun a b => a ≤ b))
    (hans : ∀ t ∈ polls, ∃ st, queryState (configAt env waitingTime t) = Except.ok st) :
    (∀ t ∈ polls, ∃ st, queryState (configAt env waitingTime t) = Except.ok st ∧
      (st = State_STARTED ∨ st = State_COMPLETED ∨ st = State_FAILED)) ∧
    (polls.map (fun t => queryState (configAt env waitingTime t))).Pairwise
      (fun a b => ∃ st st2, a = Except.ok st ∧ b = Except.ok st2 ∧
        (st ≠ State_STARTED → st2 = st)) ∧
    (∀ t ∈ polls,
      ((pollStatus env waitingTime id t).StatusCode = 200 ∧
        (pollStatus env waitingTime id t).header.Has "Location" = false) ∨
      ((pollStatus env waitingTime id t).StatusCode = 302 ∧
        (pollStatus env waitingTime id t).header.Values "Location" = ["/workflow/result"])) ∧
    (polls.map (fun t => pollStatus env waitingTime id t)).Pairwise
      (fun a b => (a.StatusCode = 302 → b.StatusCode = 302) ∧
        (b.StatusCode = 200 → a.StatusCode = 200)) := by
  refine ⟨?_, ?_, ?_, ?_⟩
  · intro t ht
    obtain ⟨st, hq⟩ := hans t ht
    exact ⟨st, hq, (queryState_settles env waitingTime t t st (le_refl t) hq).1⟩
  · rw [List.pairwise_map]
    refine List.Pairwise.imp_of_mem ?_ horder
    intro a b ha _ hab
    obtain ⟨st, hq⟩ := hans a ha
    obtain ⟨_, st2, hq2, _, hkeep⟩ := queryState_settles env waitingTime a b st hab hq
    exact ⟨st, st2, hq, hq2, hkeep⟩
  · intro t ht
    obtain ⟨st, hq⟩ := hans t ht
    exact (status_poll_pair env waitingTime id t t st hid (le_refl t) hq).1
  · rw [List.pairwise_map]
    refine List.Pairwise.imp_of_mem ?_ horder
    intro a b ha _ hab
    obtain ⟨st, hq⟩ := hans a ha
    exact (status_poll_pair env waitingTime id a b st hid hab hq).2

/-- C9 on a successful run polled at steps 1, 1, 2 and 5. -/
theorem state_query_monotonic_witness :
    ("job-1" ≠ "" ∧ [1, 1, 2, 5].Pairwise (fun a b => a ≤ b)) ∧
    ([1, 1, 2, 5].map (fun t => (pollStatus okEnv 30000000000 "job-1" t).StatusCode)
      = [200, 200, 302, 302]) ∧
    ([1, 1, 2, 5].map (fun t => pollStatus okEnv 30000000000 "job-1" t)).Pairwise
      (fun a b => (a.StatusCode = 302 → b.StatusCode = 302) ∧
        (b.StatusCode = 200 → a.StatusCode = 200)) :=
  ⟨⟨by decide, by decide⟩, by decide,
    (state_query_monotonic okEnv 30000000000 "job-1" [1, 1, 2, 5] (by decide) (by decide)
      (by
        intro t ht
        simp only [List.mem_cons, List.mem_singleton, List.not_mem_nil, or_false] at ht
        rcases ht with rfl | rfl | rfl | rfl <;> exact ⟨_, rfl⟩)).2.2.2⟩

end GoWorkflow
